import Mathlib

/-!
A verification development for the Neon Postgres Sync extension.

The sync orchestrator (`src/sync.ts`) is embedded as pure functions over an
explicit `World` state: the on-disk file system is an association list from
path to content, the remote table is an association list keyed by
`(tableName, id)`, the single active session slot and the `isSyncing` UI flag
are plain fields, and the editor-close listener is tracked by an observer id
in a `liveObservers` list.  Failure injection (`failWrite`, `failUnlink`,
`failUpdate`) models `fs.writeFileSync` / `fs.unlinkSync` / database-write
throws.  The database layer (`src/db.ts`) is embedded separately with a
`Json` value type so that the `typeof data === 'string'` branch of
`fetchRecordViaHttp` can be stated.
-/

namespace NeonSync

/-! ### File-system model: association list from path to content -/

def fsLookup : List (String × String) → String → Option String
  | [], _ => none
  | (q, c) :: rest, p => if q = p then some c else fsLookup rest p

def fsWrite : List (String × String) → String → String → List (String × String)
  | [], p, c => [(p, c)]
  | (q, d) :: rest, p, c =>
      if q = p then (p, c) :: rest else (q, d) :: fsWrite rest p c

def fsErase (fs : List (String × String)) (p : String) : List (String × String) :=
  fs.filter (fun e => decide (e.1 ≠ p))

theorem fsLookup_fsWrite_self (fs : List (String × String)) (p c : String) :
    fsLookup (fsWrite fs p c) p = some c := by
  induction fs with
  | nil => simp [fsWrite, fsLookup]
  | cons hd tl ih =>
      obtain ⟨q, d⟩ := hd
      by_cases h : q = p <;> simp [fsWrite, fsLookup, h, ih]

theorem fsLookup_fsWrite_ne (fs : List (String × String)) (p c q : String)
    (h : q ≠ p) : fsLookup (fsWrite fs p c) q = fsLookup fs q := by
  have h' : p ≠ q := Ne.symm h
  induction fs with
  | nil => simp [fsWrite, fsLookup, h']
  | cons hd tl ih =>
      obtain ⟨r, d⟩ := hd
      by_cases hr : r = p
      · subst hr
        simp [fsWrite, fsLookup, h']
      · by_cases hq : r = q <;> simp [fsWrite, fsLookup, hr, hq, ih, h]

theorem fsLookup_fsErase_ne (fs : List (String × String)) (p q : String)
    (h : q ≠ p) : fsLookup (fsErase fs p) q = fsLookup fs q := by
  have h' : p ≠ q := Ne.symm h
  induction fs with
  | nil => simp [fsErase, fsLookup]
  | cons hd tl ih =>
      obtain ⟨r, d⟩ := hd
      by_cases hr : r = p
      · subst hr
        simpa [fsErase, fsLookup, h'] using ih
      · by_cases hq : r = q
        · subst hq
          simp [fsErase, fsLookup, hr]
        · simpa [fsErase, fsLookup, hr, hq] using ih

/-! ### Remote table model: association list keyed by (tableName, id) -/

def remoteLookup : List ((String × String) × String) → String × String → Option String
  | [], _ => none
  | (k, v) :: rest, key => if k = key then some v else remoteLookup rest key

def remoteUpsert : List ((String × String) × String) → String × String → String →
    List ((String × String) × String)
  | [], key, v => [(key, v)]
  | (k, w) :: rest, key, v =>
      if k = key then (key, v) :: rest else (k, w) :: remoteUpsert rest key v

theorem remoteLookup_remoteUpsert_self (r : List ((String × String) × String))
    (key : String × String) (v : String) :
    remoteLookup (remoteUpsert r key v) key = some v := by
  induction r with
  | nil => simp [remoteUpsert, remoteLookup]
  | cons hd tl ih =>
      obtain ⟨k, w⟩ := hd
      by_cases h : k = key <;> simp [remoteUpsert, remoteLookup, h, ih]

/-! ### Data model (`Profile` from config.ts, `SyncSession` from sync.ts) -/

structure Profile where
  name : String
  filePath : String
  id : String
  tableName : String
deriving DecidableEq, Repr

inductive SessionType where
  | download
  | upload
deriving DecidableEq, Repr

/-- The `SyncSession` interface of sync.ts; `editorCloseDisposable` becomes an observer id. -/
structure SyncSession where
  type : SessionType
  profile : Profile
  candidateUri : String
  tempFiles : List String
  observerId : Option Nat
deriving DecidableEq, Repr

/-- The mutable state the orchestrator touches: the disk, the remote table,
the static `currentSession` slot, the `neonSync.isSyncing` context flag, and
the set of live (undisposed) editor-close listeners. -/
structure World where
  fs : List (String × String)
  remote : List ((String × String) × String)
  currentSession : Option SyncSession
  isSyncing : Bool
  liveObservers : List Nat
  nextObserver : Nat
deriving DecidableEq, Repr

/-- An open text document (`vscode.workspace.textDocuments` entry). -/
structure OpenDoc where
  uri : String
  text : String
  isDirty : Bool
deriving DecidableEq, Repr

/-- The function `ConfigManager.getProfile`: `profiles.find(p => p.name === name)`. -/
def getProfile (profiles : List Profile) (name : String) : Option Profile :=
  profiles.find? (fun p => p.name == name)

/-- The predicate `path.isAbsolute` (POSIX): the path begins with a slash. -/
def isAbsolute (p : String) : Bool :=
  match p.data with
  | '/' :: _ => true
  | _ => false

/-- Whitespace as JavaScript's `String.prototype.trim` strips it (the
characters that occur in this code base's text content). -/
def isJsWhitespace (c : Char) : Bool :=
  c = ' ' ∨ c = '\t' ∨ c = '\n' ∨ c = '\r' ∨ c = '\x0b' ∨ c = '\x0c'

/-- JavaScript `candidateContent.trim()`: strip whitespace at both ends. -/
def jsTrim (s : String) : String :=
  String.mk (((s.data.dropWhile isJsWhitespace).reverse.dropWhile
    isJsWhitespace).reverse)

/-- The helper `SyncManager.resolvePath`: absolute paths pass through; otherwise join
with the first workspace folder when one exists. -/
def resolvePath (root : Option String) (filePath : String) : String :=
  if isAbsolute filePath then filePath
  else
    match root with
    | some r => r ++ "/" ++ filePath
    | none => filePath

/-- Node's `path.extname`: the suffix of the last path component from its
last dot; empty for dotfiles (leading dot only) and dotless names. -/
def extname (p : String) : String :=
  let base := (p.data.reverse.takeWhile (fun c => c ≠ '/')).reverse
  let rev := base.reverse
  let pre := rev.takeWhile (fun c => c ≠ '.')
  if pre.length = rev.length then ""
  else if rev.length - pre.length - 1 = 0 then ""
  else "." ++ String.mk pre.reverse

/-- The scratch-file extension: `path.extname(profile.filePath) || '.txt'`. -/
def scratchExt (filePath : String) : String :=
  if extname filePath = "" then ".txt" else extname filePath

/-- Left scratch path of `startDownload`: ``local_${name}_${Date.now()}${ext}``
in the temp dir. -/
def dlLeftPath (p : Profile) (now : Nat) : String :=
  "/tmp/local_" ++ p.name ++ "_" ++ toString now ++ scratchExt p.filePath

/-- Right scratch path of `startDownload`: ``remote_${name}_${Date.now()}${ext}``. -/
def dlRightPath (p : Profile) (now : Nat) : String :=
  "/tmp/remote_" ++ p.name ++ "_" ++ toString now ++ scratchExt p.filePath

/-- Left scratch path of `startUpload` (remote side). -/
def ulLeftPath (p : Profile) (now : Nat) : String :=
  "/tmp/remote_" ++ p.name ++ "_" ++ toString now ++ scratchExt p.filePath

/-- Right scratch path of `startUpload` (local side). -/
def ulRightPath (p : Profile) (now : Nat) : String :=
  "/tmp/local_" ++ p.name ++ "_" ++ toString now ++ scratchExt p.filePath

/-- Build and register the session exactly as the object literal plus the
`this.currentSession = {...}` assignment and the `setContext(..., true)` call
do: the close listener is allocated while constructing the session. -/
def registerSession (ty : SessionType) (p : Profile) (candidate : String)
    (temps : List String) (w : World) : World :=
  let obsId := w.nextObserver
  { w with
      currentSession := some
        { type := ty, profile := p, candidateUri := candidate,
          tempFiles := temps, observerId := some obsId }
      isSyncing := true
      liveObservers := obsId :: w.liveObservers
      nextObserver := obsId + 1 }

inductive StartOutcome where
  | profileNotFound
  | noRecord
  | localFileMissing
  | nothingToSync
  | fetchFailed (msg : String)
  | writeFailed (path : String)
  | sessionStarted
deriving DecidableEq, Repr

/-- The command `SyncManager.startDownload`.  `fetch` stands for
`DatabaseService.fetchRecord` (which may throw — `Except.error`); `failWrite`
injects `fs.writeFileSync` throws; `now` is `Date.now()`. -/
def startDownload (profiles : List Profile) (profileName : String)
    (fetch : Profile → Except String (Option String))
    (failWrite : String → Bool) (root : Option String) (now : Nat)
    (w : World) : World × StartOutcome :=
  match getProfile profiles profileName with
  | none => (w, .profileNotFound)
  | some profile =>
    match fetch profile with
    | .error msg => (w, .fetchFailed msg)
    | .ok remoteData =>
      match remoteData with
      | none => (w, .noRecord)
      | some rd =>
        let absolutePath := resolvePath root profile.filePath
        let localContent :=
          match fsLookup w.fs absolutePath with
          | some c => c
          | none => ""
        let remoteContentFormatted := if rd = "" then "" else rd
        if (fsLookup w.fs absolutePath).isSome ∧
            localContent = remoteContentFormatted then
          (w, .nothingToSync)
        else
          let leftPath := dlLeftPath profile now
          if failWrite leftPath then (w, .writeFailed leftPath)
          else
            let w1 := { w with fs := fsWrite w.fs leftPath localContent }
            let rightPath := dlRightPath profile now
            if failWrite rightPath then (w1, .writeFailed rightPath)
            else
              let w2 := { w1 with
                fs := fsWrite w1.fs rightPath remoteContentFormatted }
              (registerSession .download profile rightPath
                [leftPath, rightPath] w2, .sessionStarted)

/-- The command `SyncManager.startUpload`. -/
def startUpload (profiles : List Profile) (profileName : String)
    (fetch : Profile → Except String (Option String))
    (failWrite : String → Bool) (root : Option String) (now : Nat)
    (w : World) : World × StartOutcome :=
  match getProfile profiles profileName with
  | none => (w, .profileNotFound)
  | some profile =>
    match fetch profile with
    | .error msg => (w, .fetchFailed msg)
    | .ok remoteData =>
      let localFilePath := resolvePath root profile.filePath
      if (fsLookup w.fs localFilePath).isNone then (w, .localFileMissing)
      else
        let localData := (fsLookup w.fs localFilePath).getD ""
        let remoteContent :=
          match remoteData with
          | none => ""
          | some rd => if rd = "" then "" else rd
        if localData = remoteContent then (w, .nothingToSync)
        else
          let leftPath := ulLeftPath profile now
          if failWrite leftPath then (w, .writeFailed leftPath)
          else
            let w1 := { w with fs := fsWrite w.fs leftPath remoteContent }
            let rightPath := ulRightPath profile now
            if failWrite rightPath then (w1, .writeFailed rightPath)
            else
              let w2 := { w1 with fs := fsWrite w1.fs rightPath localData }
              (registerSession .upload profile rightPath
                [leftPath, rightPath] w2, .sessionStarted)

/-- The temp-file deletion loop inside `cleanupSession`: each file is
unlinked only if it exists, and an `unlinkSync` throw is caught and merely
logged (`failUnlink` injects such throws). -/
def deleteTempFiles (failUnlink : String → Bool) :
    List String → List (String × String) → List (String × String)
  | [], fs => fs
  | f :: rest, fs =>
      let fs' :=
        if (fsLookup fs f).isSome then
          if failUnlink f then fs else fsErase fs f
        else fs
      deleteTempFiles failUnlink rest fs'

/-- The method `SyncManager.cleanupSession`: when a session is registered,
dispose its close listener, optionally close the editor (no modelled state),
delete the temp files (deletion errors swallowed), clear the session slot and
reset the `isSyncing` context flag; otherwise do nothing. -/
def cleanupSession (failUnlink : String → Bool) (closeEditor : Bool)
    (w : World) : World :=
  match w.currentSession with
  | none => w
  | some s =>
      let live1 :=
        match s.observerId with
        | some i => w.liveObservers.erase i
        | none => w.liveObservers
      let _ := closeEditor
      let fs1 := deleteTempFiles failUnlink s.tempFiles w.fs
      { w with
          fs := fs1
          liveObservers := live1
          currentSession := none
          isSyncing := false }

/-- The listener body registered by `registerEditorCloseListener`: when a
session exists and its candidate file is no longer visible in any editor,
run `cleanupSession(false)`. -/
def onEditorsChanged (editors : List String) (failUnlink : String → Bool)
    (w : World) : World :=
  match w.currentSession with
  | none => w
  | some s =>
      if editors.any (fun e => e == s.candidateUri) then w
      else cleanupSession failUnlink false w

/-- The command `SyncManager.cancelSync`: no-op without a session, otherwise
cleanup; the returned flag records whether the cancellation message was shown. -/
def cancelSync (failUnlink : String → Bool) (w : World) : World × Bool :=
  match w.currentSession with
  | none => (w, false)
  | some _ => (cleanupSession failUnlink true w, true)

/-- Candidate-content resolution in `confirmSync` (sync.ts lines 177-203):
prefer the open document (saving it first when dirty, which writes the temp
file), else read from disk; if the result is empty or whitespace-only,
fall back to re-reading the file from disk when it exists.  Returns the
possibly-updated disk and the resolved content. -/
def resolveCandidate (docs : List OpenDoc) (fs : List (String × String))
    (uri : String) : List (String × String) × String :=
  let step :=
    match docs.find? (fun d => d.uri == uri) with
    | some d => (if d.isDirty then fsWrite fs uri d.text else fs, d.text)
    | none =>
        match fsLookup fs uri with
        | some c => (fs, c)
        | none => (fs, "")
  let fs1 := step.1
  let c0 := step.2
  let c1 :=
    if c0 = "" ∨ jsTrim c0 = "" then
      match fsLookup fs1 uri with
      | some c => c
      | none => c0
    else c0
  (fs1, c1)

inductive ConfirmOutcome where
  | noActiveSession
  | unreadableCandidate
  | success
  | confirmError (msg : String)
deriving DecidableEq, Repr

/-- The command `SyncManager.confirmSync`.  `failWrite` injects
`fs.writeFileSync` throws, `failUpdate` a `DatabaseService.updateRecord`
throw; every path out of the try block runs `cleanupSession(true)` in the
finally block — including the early return on unreadable candidate content. -/
def confirmSync (docs : List OpenDoc) (failWrite failUnlink : String → Bool)
    (failUpdate : Bool) (root : Option String) (w : World) :
    World × ConfirmOutcome :=
  match w.currentSession with
  | none => (w, .noActiveSession)
  | some s =>
      let r := resolveCandidate docs w.fs s.candidateUri
      let w1 := { w with fs := r.1 }
      let candidateContent := r.2
      if candidateContent = "" ∨ jsTrim candidateContent = "" then
        (cleanupSession failUnlink true w1, .unreadableCandidate)
      else
        let localFilePath := resolvePath root s.profile.filePath
        match s.type with
        | .download =>
            if failWrite localFilePath then
              (cleanupSession failUnlink true w1, .confirmError localFilePath)
            else
              let w2 := { w1 with fs := fsWrite w1.fs localFilePath candidateContent }
              (cleanupSession failUnlink true w2, .success)
        | .upload =>
            if failUpdate then
              (cleanupSession failUnlink true w1, .confirmError "updateRecord")
            else
              let w2 := { w1 with
                remote := remoteUpsert w1.remote
                  (s.profile.tableName, s.profile.id) candidateContent }
              if failWrite localFilePath then
                (cleanupSession failUnlink true w2, .confirmError localFilePath)
              else
                let w3 := { w2 with
                  fs := fsWrite w2.fs localFilePath candidateContent }
                (cleanupSession failUnlink true w3, .success)

/-! ### Database layer (`src/db.ts`) -/

/-- Values that can sit in the `data` column as seen by the JS driver
(numbers restricted to integers; floats do not occur in the claims). -/
inductive Json where
  | null
  | bool (b : Bool)
  | num (n : Int)
  | str (s : String)
  | arr (xs : List Json)
  | obj (fields : List (String × Json))
deriving Repr

def Json.isString : Json → Bool
  | .str _ => true
  | _ => false

def hexDigit (n : Nat) : Char :=
  if n < 10 then Char.ofNat (48 + n) else Char.ofNat (87 + n)

/-- JSON string-character escaping as `JSON.stringify` performs it. -/
def escapeChar (c : Char) : String :=
  if c = '"' then "\\\""
  else if c = '\\' then "\\\\"
  else if c = '\n' then "\\n"
  else if c = '\t' then "\\t"
  else if c = '\r' then "\\r"
  else if c.toNat = 8 then "\\b"
  else if c.toNat = 12 then "\\f"
  else if c.toNat < 32 then
    "\\u00" ++ String.mk [hexDigit (c.toNat / 16), hexDigit (c.toNat % 16)]
  else String.mk [c]

def jsonQuote (s : String) : String :=
  "\"" ++ String.join (s.data.map escapeChar) ++ "\""

/-- Two spaces per depth level: the `2` gap of `JSON.stringify(v, null, 2)`. -/
def indent2 (depth : Nat) : String :=
  String.join (List.replicate depth "  ")

mutual

/-- The serialization `JSON.stringify(v, null, 2)` at nesting depth `depth`. -/
def jsonStr2 (depth : Nat) : Json → String
  | .null => "null"
  | .bool b => if b then "true" else "false"
  | .num n => toString n
  | .str s => jsonQuote s
  | .arr [] => "[]"
  | .arr (x :: xs) =>
      "[\n" ++ String.intercalate ",\n" (jsonStrList2 (depth + 1) (x :: xs)) ++
        "\n" ++ indent2 depth ++ "]"
  | .obj [] => "\x7b\x7d"
  | .obj (f :: fs) =>
      "\x7b\n" ++ String.intercalate ",\n" (jsonStrFields2 (depth + 1) (f :: fs)) ++
        "\n" ++ indent2 depth ++ "\x7d"

def jsonStrList2 (depth : Nat) : List Json → List String
  | [] => []
  | x :: xs => (indent2 depth ++ jsonStr2 depth x) :: jsonStrList2 depth xs

def jsonStrFields2 (depth : Nat) : List (String × Json) → List String
  | [] => []
  | (k, v) :: fs =>
      (indent2 depth ++ jsonQuote k ++ ": " ++ jsonStr2 depth v) ::
        jsonStrFields2 depth fs

end

/-- The top-level `JSON.stringify(v, null, 2)`. -/
def jsonStringify2 (v : Json) : String :=
  jsonStr2 0 v

mutual

/-- The compact serialization `JSON.stringify(v)` (no indent argument) — what
a verbatim text rendering of the stored value would be. -/
def jsonStrC : Json → String
  | .null => "null"
  | .bool b => if b then "true" else "false"
  | .num n => toString n
  | .str s => jsonQuote s
  | .arr xs => "[" ++ String.intercalate "," (jsonStrListC xs) ++ "]"
  | .obj fs => "\x7b" ++ String.intercalate "," (jsonStrFieldsC fs) ++ "\x7d"

def jsonStrListC : List Json → List String
  | [] => []
  | x :: xs => jsonStrC x :: jsonStrListC xs

def jsonStrFieldsC : List (String × Json) → List String
  | [] => []
  | (k, v) :: fs => (jsonQuote k ++ ":" ++ jsonStrC v) :: jsonStrFieldsC fs

end

def isIdentStart (c : Char) : Bool :=
  c.isAlpha || c = '_'

def isIdentChar (c : Char) : Bool :=
  c.isAlpha || c.isDigit || c = '_'

/-- Remaining characters of a plain identifier (no dot allowed). -/
def matchIdent : List Char → Bool
  | [] => true
  | c :: cs => isIdentChar c && matchIdent cs

/-- Remaining characters after the first identifier character: identifier
characters, optionally one dot followed by a second identifier. -/
def matchRestWithDot : List Char → Bool
  | [] => true
  | c :: cs =>
      if isIdentChar c then matchRestWithDot cs
      else if c = '.' then
        match cs with
        | [] => false
        | d :: ds => isIdentStart d && matchIdent ds
      else false

/-- The check `DatabaseService.validateTableName`: the regular expression
test of `sql` identifiers `[a-zA-Z_][a-zA-Z0-9_]*` with an optional
schema-qualifying `.identifier` suffix, anchored at both ends. -/
def validateTableName (tableName : String) : Bool :=
  match tableName.data with
  | [] => false
  | c :: cs => isIdentStart c && matchRestWithDot cs

inductive DbError where
  | invalidTableName (tableName : String)
  | connectionNotConfigured
deriving DecidableEq, Repr

/-- Database-side state: the configured connection string, the table rows
visible as `(tableName, id) -> data`, and a trace of every SQL query string
that was built and handed to the driver. -/
structure DbState where
  conn : Option String
  tables : List ((String × String) × Json)
  builtQueries : List String

def jsonLookup : List ((String × String) × Json) → String × String → Option Json
  | [], _ => none
  | (k, v) :: rest, key => if k = key then some v else jsonLookup rest key

def jsonUpsert : List ((String × String) × Json) → String × String → Json →
    List ((String × String) × Json)
  | [], key, v => [(key, v)]
  | (k, w) :: rest, key, v =>
      if k = key then (key, v) :: rest else (k, w) :: jsonUpsert rest key v

/-- The SELECT text interpolating the table name (db.ts line 84). -/
def fetchQuery (tableName : String) : String :=
  "SELECT data FROM " ++ tableName ++ " WHERE id = $1"

/-- The INSERT ... ON CONFLICT upsert text interpolating the table name
(db.ts lines 97-102), with its whitespace collapsed. -/
def updateQuery (tableName : String) : String :=
  "INSERT INTO " ++ tableName ++
    " (id, data, create_time, update_time) VALUES ($1, $2, CURRENT_TIMESTAMP, CURRENT_TIMESTAMP)" ++
    " ON CONFLICT (id) DO UPDATE SET data = $2, update_time = CURRENT_TIMESTAMP"

/-- The method `DatabaseService.fetchRecordViaHttp`: build and run the SELECT,
then return the first row's `data` — verbatim when it is a string, otherwise
`JSON.stringify(data, null, 2)`; `none` when no row matches. -/
def fetchRecordViaHttp (st : DbState) (p : Profile) : DbState × Option String :=
  let query := fetchQuery p.tableName
  let st' := { st with builtQueries := st.builtQueries ++ [query] }
  match jsonLookup st.tables (p.tableName, p.id) with
  | some data =>
      (st', some (match data with
        | .str s => s
        | v => jsonStringify2 v))
  | none => (st', none)

/-- The method `DatabaseService.updateRecordViaHttp`: build and run the
upsert, storing the text parameter into the `data` column. -/
def updateRecordViaHttp (st : DbState) (p : Profile) (data : String) : DbState :=
  let query := updateQuery p.tableName
  { st with
      builtQueries := st.builtQueries ++ [query]
      tables := jsonUpsert st.tables (p.tableName, p.id) (.str data) }

/-- The public `DatabaseService.fetchRecord`: reject an invalid table name
before anything else; then require a configured connection string and run
the SELECT. -/
def fetchRecord (st : DbState) (p : Profile) :
    DbState × Except DbError (Option String) :=
  if ¬ validateTableName p.tableName then
    (st, .error (.invalidTableName p.tableName))
  else
    match st.conn with
    | none => (st, .error .connectionNotConfigured)
    | some _ =>
        let r := fetchRecordViaHttp st p
        (r.1, .ok r.2)

/-- The public `DatabaseService.updateRecord`, same guard structure. -/
def updateRecord (st : DbState) (p : Profile) (data : String) :
    DbState × Except DbError Unit :=
  if ¬ validateTableName p.tableName then
    (st, .error (.invalidTableName p.tableName))
  else
    match st.conn with
    | none => (st, .error .connectionNotConfigured)
    | some _ => (updateRecordViaHttp st p data, .ok ())

/-! ### Shared concrete examples and helper lemmas -/

def exampleProfile : Profile :=
  { name := "cfg", filePath := "/ws/settings.json", id := "app-settings",
    tableName := "json_records" }

def emptyWorld : World :=
  { fs := [], remote := [], currentSession := none, isSyncing := false,
    liveObservers := [], nextObserver := 0 }

def exampleSession : SyncSession :=
  { type := .download, profile := exampleProfile,
    candidateUri := "/tmp/remote_cfg_0.json",
    tempFiles := ["/tmp/local_cfg_0.json", "/tmp/remote_cfg_0.json"],
    observerId := some 0 }

/-- An active download session whose candidate scratch file is empty on disk. -/
def unreadableWorld : World :=
  { fs := [("/tmp/local_cfg_0.json", "x"), ("/tmp/remote_cfg_0.json", "")],
    remote := [], currentSession := some exampleSession, isSyncing := true,
    liveObservers := [0], nextObserver := 1 }

/-- An active download session whose candidate scratch file holds new content. -/
def readableWorld : World :=
  { fs := [("/tmp/local_cfg_0.json", "x"),
      ("/tmp/remote_cfg_0.json", "new content")],
    remote := [], currentSession := some exampleSession, isSyncing := true,
    liveObservers := [0], nextObserver := 1 }

theorem fsLookup_deleteTempFiles (fU : String → Bool) (files : List String)
    (fs : List (String × String)) (p : String) (h : p ∉ files) :
    fsLookup (deleteTempFiles fU files fs) p = fsLookup fs p := by
  induction files generalizing fs with
  | nil => rfl
  | cons f rest ih =>
      have hf : p ≠ f := fun hh => h (hh ▸ List.mem_cons_self f rest)
      have hrest : p ∉ rest := fun hh => h (List.mem_cons_of_mem f hh)
      rw [deleteTempFiles, ih _ hrest]
      by_cases he : (fsLookup fs f).isSome
      · by_cases hu : fU f
        · simp [he, hu]
        · simp [he, hu, fsLookup_fsErase_ne fs f p hf]
      · simp [he]

theorem fsLookup_resolveCandidate_fs (docs : List OpenDoc)
    (fs : List (String × String)) (uri q : String) (h : q ≠ uri) :
    fsLookup (resolveCandidate docs fs uri).1 q = fsLookup fs q := by
  unfold resolveCandidate
  cases hd : docs.find? (fun d => d.uri == uri) with
  | none =>
      cases hl : fsLookup fs uri <;> simp [hd, hl]
  | some d =>
      by_cases hdirty : d.isDirty <;>
        simp [hd, hdirty, fsLookup_fsWrite_ne fs uri d.text q h]

/-! ### Claims -/

/-- C5: Session cleanup is idempotent: once the session reference is cleared,
`cleanupSession` is a no-op (no double-deletion of scratch files, no
double-dispose of the observer), so running cleanup twice — with any
combination of unlink-failure behaviour and `closeEditor` flags, as
`cancelSync`, `confirmSync`'s finally path, and the close-detection observer
invoke it — leaves exactly the state of running it once. -/
theorem cleanup_idempotent :
    (∀ (fU : String → Bool) (c : Bool) (w : World),
      w.currentSession = none → cleanupSession fU c w = w) ∧
    (∀ (fU fU' : String → Bool) (c c' : Bool) (w : World),
      cleanupSession fU' c' (cleanupSession fU c w) = cleanupSession fU c w) := by
  constructor
  · intro fU c w h
    simp [cleanupSession, h]
  · intro fU fU' c c' w
    cases h : w.currentSession <;> simp [cleanupSession, h]

/-- C5 witness: a second cleanup after cleaning up an active session changes
nothing, at a concrete world. -/
theorem cleanup_idempotent_witness :
    unreadableWorld.currentSession ≠ none ∧
    (cleanupSession (fun _ => false) true unreadableWorld).currentSession = none ∧
    cleanupSession (fun _ => true) false
        (cleanupSession (fun _ => false) true unreadableWorld) =
      cleanupSession (fun _ => false) true unreadableWorld :=
  ⟨by decide, by decide,
    cleanup_idempotent.2 (fun _ => false) (fun _ => true) true false unreadableWorld⟩

/-- C10: for every active session, cleanup clears the active-session slot,
resets the syncing flag, and disposes the close-observer, no matter which
scratch-file deletions fail (`fU` arbitrary — `unlinkSync` errors are caught
and only logged). -/
theorem cleanup_always_clears_session (fU : String → Bool) (c : Bool)
    (w : World) (s : SyncSession) (h : w.currentSession = some s) :
    (cleanupSession fU c w).currentSession = none ∧
    (cleanupSession fU c w).isSyncing = false ∧
    (∀ i, s.observerId = some i →
      (cleanupSession fU c w).liveObservers = w.liveObservers.erase i) := by
  refine ⟨?_, ?_, ?_⟩ <;> simp [cleanupSession, h]
  intro i hi
  simp [hi]

/-- C10 witness: cleanup at a concrete active session where every unlink
fails still clears the slot, the flag and the observer. -/
theorem cleanup_always_clears_session_witness :
    unreadableWorld.currentSession = some exampleSession ∧
    (cleanupSession (fun _ => true) true unreadableWorld).currentSession = none ∧
    (cleanupSession (fun _ => true) true unreadableWorld).isSyncing = false ∧
    (cleanupSession (fun _ => true) true unreadableWorld).liveObservers =
      unreadableWorld.liveObservers.erase 0 := by
  have h := cleanup_always_clears_session (fun _ => true) true unreadableWorld
    exampleSession (by decide)
  exact ⟨by decide, h.1, h.2.1, h.2.2 0 (by decide)⟩

/-- C6: a profile whose table name fails the identifier pattern makes both
`fetchRecord` and `updateRecord` fail with `InvalidTableName` while leaving
the database state — in particular the trace of built queries — untouched:
the query-building branch is unreachable. -/
theorem invalid_table_name_rejected (st : DbState) (p : Profile) (d : String)
    (h : validateTableName p.tableName = false) :
    fetchRecord st p = (st, .error (.invalidTableName p.tableName)) ∧
    updateRecord st p d = (st, .error (.invalidTableName p.tableName)) ∧
    (fetchRecord st p).1.builtQueries = st.builtQueries ∧
    (updateRecord st p d).1.builtQueries = st.builtQueries := by
  refine ⟨?_, ?_, ?_, ?_⟩ <;> simp [fetchRecord, updateRecord, h]

/-- C6 witness: the injection attempt `"json_records; DROP TABLE x"` is
rejected by `validateTableName` and `fetchRecord` builds no query for it. -/
theorem invalid_table_name_rejected_witness :
    validateTableName "json_records; DROP TABLE x" = false ∧
    fetchRecord { conn := some "postgres://u@h/db", tables := [], builtQueries := [] }
        { name := "bad", filePath := "f", id := "i",
          tableName := "json_records; DROP TABLE x" } =
      ({ conn := some "postgres://u@h/db", tables := [], builtQueries := [] },
        .error (.invalidTableName "json_records; DROP TABLE x")) := by
  have h := invalid_table_name_rejected
    { conn := some "postgres://u@h/db", tables := [], builtQueries := [] }
    { name := "bad", filePath := "f", id := "i",
      tableName := "json_records; DROP TABLE x" } "d" (by decide)
  exact ⟨by decide, h.1⟩

/-- C1 counterexample: a confirm whose candidate resolution yields no usable
content (candidate file empty on disk, no open document) does fail without
writing, but the session does NOT remain active: the `finally` block runs
`cleanupSession(true)`, clearing the session slot, deleting both scratch
files and disposing the observer — the user cannot retry confirm. -/
theorem confirm_unreadable_counterexample :
    (confirmSync [] (fun _ => false) (fun _ => false) false none unreadableWorld).2 =
      .unreadableCandidate ∧
    unreadableWorld.currentSession = some exampleSession ∧
    (confirmSync [] (fun _ => false) (fun _ => false) false none unreadableWorld).1.currentSession =
      none ∧
    (confirmSync [] (fun _ => false) (fun _ => false) false none unreadableWorld).1.fs = [] ∧
    (confirmSync [] (fun _ => false) (fun _ => false) false none unreadableWorld).1.liveObservers =
      [] := by
  refine ⟨?_, ?_, ?_, ?_, ?_⟩ <;> decide

/-- C1 amended: when candidate resolution yields no usable content,
`confirmSync` fails with the unreadable-candidate error and writes neither
the local file nor the remote record — but the finally path still cleans the
session up (slot cleared, syncing flag reset), so the session does not remain
active for a retry. -/
theorem confirm_unreadable_aborts_without_writing (docs : List OpenDoc)
    (fW fU : String → Bool) (fUp : Bool) (root : Option String)
    (w : World) (s : SyncSession)
    (h : w.currentSession = some s)
    (hread : jsTrim (resolveCandidate docs w.fs s.candidateUri).2 = "")
    (hlocal : resolvePath root s.profile.filePath ∉ s.tempFiles)
    (hcand : resolvePath root s.profile.filePath ≠ s.candidateUri) :
    (confirmSync docs fW fU fUp root w).2 = .unreadableCandidate ∧
    (confirmSync docs fW fU fUp root w).1.remote = w.remote ∧
    fsLookup (confirmSync docs fW fU fUp root w).1.fs
        (resolvePath root s.profile.filePath) =
      fsLookup w.fs (resolvePath root s.profile.filePath) ∧
    (confirmSync docs fW fU fUp root w).1.currentSession = none ∧
    (confirmSync docs fW fU fUp root w).1.isSyncing = false := by
  have hcond : ((resolveCandidate docs w.fs s.candidateUri).2 = "" ∨
      jsTrim (resolveCandidate docs w.fs s.candidateUri).2 = "") := Or.inr hread
  refine ⟨?_, ?_, ?_, ?_, ?_⟩
  · simp [confirmSync, h, hcond]
  · simp [confirmSync, h, hcond, cleanupSession]
  · simp only [confirmSync, h, hcond, if_pos, cleanupSession]
    rw [fsLookup_deleteTempFiles _ _ _ _ hlocal,
      fsLookup_resolveCandidate_fs _ _ _ _ hcand]
  · simp [confirmSync, h, hcond, cleanupSession]
  · simp [confirmSync, h, hcond, cleanupSession]

/-- C1 amended witness: the amended behaviour at the concrete unreadable
world (no open documents, empty candidate on disk). -/
theorem confirm_unreadable_aborts_without_writing_witness :
    (confirmSync [] (fun _ => false) (fun _ => false) false none unreadableWorld).2 =
      .unreadableCandidate ∧
    (confirmSync [] (fun _ => false) (fun _ => false) false none unreadableWorld).1.remote =
      unreadableWorld.remote ∧
    fsLookup (confirmSync [] (fun _ => false) (fun _ => false) false none unreadableWorld).1.fs
        "/ws/settings.json" =
      fsLookup unreadableWorld.fs "/ws/settings.json" ∧
    (confirmSync [] (fun _ => false) (fun _ => false) false none unreadableWorld).1.currentSession =
      none ∧
    (confirmSync [] (fun _ => false) (fun _ => false) false none unreadableWorld).1.isSyncing =
      false :=
  confirm_unreadable_aborts_without_writing [] (fun _ => false) (fun _ => false)
    false none unreadableWorld exampleSession (by decide) (by decide) (by decide)
    (by decide)

/-- C3: a successfully confirmed session writes the candidate content read
at confirm time byte-for-byte: for a download the local file ends up exactly
the candidate content (remote untouched); for an upload the remote record
holds the candidate content and the local file is mirrored to it. -/
theorem confirm_writes_candidate_byte_for_byte (docs : List OpenDoc)
    (fU : String → Bool) (root : Option String) (w : World) (s : SyncSession)
    (h : w.currentSession = some s)
    (hread : ¬((resolveCandidate docs w.fs s.candidateUri).2 = "" ∨
      jsTrim (resolveCandidate docs w.fs s.candidateUri).2 = ""))
    (hlocal : resolvePath root s.profile.filePath ∉ s.tempFiles) :
    (confirmSync docs (fun _ => false) fU false root w).2 = .success ∧
    fsLookup (confirmSync docs (fun _ => false) fU false root w).1.fs
        (resolvePath root s.profile.filePath) =
      some (resolveCandidate docs w.fs s.candidateUri).2 ∧
    (s.type = .download →
      (confirmSync docs (fun _ => false) fU false root w).1.remote = w.remote) ∧
    (s.type = .upload →
      remoteLookup (confirmSync docs (fun _ => false) fU false root w).1.remote
          (s.profile.tableName, s.profile.id) =
        some (resolveCandidate docs w.fs s.candidateUri).2) := by
  cases hty : s.type with
  | download =>
      refine ⟨?_, ?_, ?_, ?_⟩
      · simp [confirmSync, h, hty, hread]
      · simp only [confirmSync, h, hty, hread, if_false, cleanupSession,
          Bool.false_eq_true, reduceIte]
        rw [fsLookup_deleteTempFiles _ _ _ _ hlocal, fsLookup_fsWrite_self]
      · intro _
        simp [confirmSync, h, hty, hread, cleanupSession]
      · intro hcontra
        cases hcontra
  | upload =>
      refine ⟨?_, ?_, ?_, ?_⟩
      · simp [confirmSync, h, hty, hread]
      · simp only [confirmSync, h, hty, hread, if_false, cleanupSession,
          Bool.false_eq_true, reduceIte]
        rw [fsLookup_deleteTempFiles _ _ _ _ hlocal, fsLookup_fsWrite_self]
      · intro hcontra
        cases hcontra
      · intro _
        simp only [confirmSync, h, hty, hread, if_false, cleanupSession,
          Bool.false_eq_true, reduceIte]
        exact remoteLookup_remoteUpsert_self _ _ _

/-- C3 witness: confirming the concrete readable download session writes
"new content" verbatim to the profile's local file. -/
theorem confirm_writes_candidate_byte_for_byte_witness :
    (confirmSync [] (fun _ => false) (fun _ => false) false none readableWorld).2 =
      .success ∧
    fsLookup (confirmSync [] (fun _ => false) (fun _ => false) false none readableWorld).1.fs
        "/ws/settings.json" = some "new content" ∧
    (confirmSync [] (fun _ => false) (fun _ => false) false none readableWorld).1.remote =
      readableWorld.remote := by
  have h := confirm_writes_candidate_byte_for_byte [] (fun _ => false) none
    readableWorld exampleSession (by decide) (by decide) (by decide)
  exact ⟨h.1, h.2.1, h.2.2.1 (by decide)⟩

/-- C2 counterexample: with the local file absent and the remote record
holding the empty string, local content (treated as empty) and remote blob
are byte-identical, yet `startDownload` does not report "nothing to sync":
the short-circuit requires the local file to exist, so a session is created
and both scratch files are written. -/
theorem identical_content_counterexample :
    (startDownload [exampleProfile] "cfg" (fun _ => .ok (some ""))
        (fun _ => false) none 0 emptyWorld).2 = .sessionStarted ∧
    (startDownload [exampleProfile] "cfg" (fun _ => .ok (some ""))
        (fun _ => false) none 0 emptyWorld).2 ≠ .nothingToSync ∧
    (startDownload [exampleProfile] "cfg" (fun _ => .ok (some ""))
        (fun _ => false) none 0 emptyWorld).1.currentSession.isSome = true ∧
    fsLookup (startDownload [exampleProfile] "cfg" (fun _ => .ok (some ""))
        (fun _ => false) none 0 emptyWorld).1.fs
      (dlLeftPath exampleProfile 0) = some "" ∧
    fsLookup (startDownload [exampleProfile] "cfg" (fun _ => .ok (some ""))
        (fun _ => false) none 0 emptyWorld).1.fs
      (dlRightPath exampleProfile 0) = some "" := by
  refine ⟨?_, ?_, ?_, ?_, ?_⟩ <;> decide

/-- C2 amended: when the local file EXISTS and its content is byte-identical
to the remote blob, both `startDownload` and `startUpload` report "nothing to
sync" and leave the world unchanged — no session, no scratch files.  (When
the local file is absent, `startDownload`'s short-circuit does not apply even
if the remote blob is empty.) -/
theorem identical_content_no_session (profiles : List Profile) (name : String)
    (fetch : Profile → Except String (Option String)) (fW : String → Bool)
    (root : Option String) (now : Nat) (w : World) (p : Profile) (rd : String)
    (hp : getProfile profiles name = some p)
    (hf : fetch p = .ok (some rd))
    (hl : fsLookup w.fs (resolvePath root p.filePath) = some rd) :
    startDownload profiles name fetch fW root now w = (w, .nothingToSync) ∧
    startUpload profiles name fetch fW root now w = (w, .nothingToSync) := by
  constructor
  · simp only [startDownload, hp, hf, hl]
    by_cases hrd : rd = "" <;> simp [hrd, hl]
  · simp only [startUpload, hp, hf, hl]
    by_cases hrd : rd = "" <;> simp [hrd, hl]

/-- C2 amended witness: identical existing local content and remote blob at a
concrete profile produce "nothing to sync" with the world unchanged. -/
theorem identical_content_no_session_witness :
    startDownload [exampleProfile] "cfg" (fun _ => .ok (some "same"))
        (fun _ => false) none 0
        { emptyWorld with fs := [("/ws/settings.json", "same")] } =
      ({ emptyWorld with fs := [("/ws/settings.json", "same")] },
        .nothingToSync) ∧
    startUpload [exampleProfile] "cfg" (fun _ => .ok (some "same"))
        (fun _ => false) none 0
        { emptyWorld with fs := [("/ws/settings.json", "same")] } =
      ({ emptyWorld with fs := [("/ws/settings.json", "same")] },
        .nothingToSync) :=
  identical_content_no_session [exampleProfile] "cfg"
    (fun _ => .ok (some "same")) (fun _ => false) none 0
    { emptyWorld with fs := [("/ws/settings.json", "same")] }
    exampleProfile "same" (by decide) rfl (by decide)

/-- C7: a missing remote record makes `startDownload` stop with the
distinguishable "no record" outcome before any scratch file is written (the
world is unchanged), while `startUpload` treats it exactly like an empty
remote blob — the whole run is equal to the run against a record holding
`""` — and in particular proceeds to a session when a non-empty local file
exists and nothing fails (first-time upload). -/
theorem missing_record_outcomes (profiles : List Profile) (name : String)
    (fW : String → Bool) (root : Option String) (now : Nat) (w : World)
    (p : Profile) (d : String)
    (hp : getProfile profiles name = some p) :
    (∀ fetch : Profile → Except String (Option String), fetch p = .ok none →
      startDownload profiles name fetch fW root now w = (w, .noRecord)) ∧
    (∀ fetchNone fetchEmpty : Profile → Except String (Option String),
      fetchNone p = .ok none → fetchEmpty p = .ok (some "") →
      startUpload profiles name fetchNone fW root now w =
        startUpload profiles name fetchEmpty fW root now w) ∧
    (∀ fetch : Profile → Except String (Option String), fetch p = .ok none →
      fsLookup w.fs (resolvePath root p.filePath) = some d → d ≠ "" →
      (∀ q, fW q = false) →
      (startUpload profiles name fetch fW root now w).2 = .sessionStarted) := by
  refine ⟨?_, ?_, ?_⟩
  · intro fetch hf
    simp [startDownload, hp, hf]
  · intro fetchNone fetchEmpty hn he
    simp [startUpload, hp, hn, he]
  · intro fetch hf hl hd hfw
    simp [startUpload, hp, hf, hl, hd, hfw]

/-- C7 witness: the three conjuncts at a concrete profile with a non-empty
local file and a missing remote record. -/
theorem missing_record_outcomes_witness :
    startDownload [exampleProfile] "cfg" (fun _ => .ok none) (fun _ => false)
        none 0 { emptyWorld with fs := [("/ws/settings.json", "data")] } =
      ({ emptyWorld with fs := [("/ws/settings.json", "data")] }, .noRecord) ∧
    startUpload [exampleProfile] "cfg" (fun _ => .ok none) (fun _ => false)
        none 0 { emptyWorld with fs := [("/ws/settings.json", "data")] } =
      startUpload [exampleProfile] "cfg" (fun _ => .ok (some ""))
        (fun _ => false) none 0
        { emptyWorld with fs := [("/ws/settings.json", "data")] } ∧
    (startUpload [exampleProfile] "cfg" (fun _ => .ok none) (fun _ => false)
        none 0 { emptyWorld with fs := [("/ws/settings.json", "data")] }).2 =
      .sessionStarted := by
  have h := missing_record_outcomes [exampleProfile] "cfg" (fun _ => false)
    none 0 { emptyWorld with fs := [("/ws/settings.json", "data")] }
    exampleProfile "data" (by decide)
  exact ⟨h.1 _ rfl, h.2.1 _ _ rfl rfl,
    h.2.2 _ rfl (by decide) (by decide) (fun _ => rfl)⟩

/-- C8: for a fetched record whose `data` column holds a non-string value,
`fetchRecord` returns the value's JSON serialization with 2-space
indentation — not the stored value verbatim (it differs from the compact
rendering of the stored value, e.g. for the object with field a = 1) — while
a string value is returned unchanged. -/
theorem fetch_serializes_nonstring_data (st : DbState) (p : Profile)
    (v : Json) (cs : String)
    (hval : validateTableName p.tableName = true)
    (hconn : st.conn = some cs)
    (hv : jsonLookup st.tables (p.tableName, p.id) = some v) :
    (v.isString = false →
      (fetchRecord st p).2 = .ok (some (jsonStringify2 v))) ∧
    (∀ s, v = .str s → (fetchRecord st p).2 = .ok (some s)) ∧
    jsonStringify2 (.obj [("a", .num 1)]) = "\x7b\n  \"a\": 1\n\x7d" ∧
    jsonStringify2 (.obj [("a", .num 1)]) ≠ jsonStrC (.obj [("a", .num 1)]) := by
  refine ⟨?_, ?_, by decide, by decide⟩
  · intro hns
    cases v <;> simp_all [fetchRecord, fetchRecordViaHttp, hval, hconn, hv,
      Json.isString]
  · intro s hs
    subst hs
    simp [fetchRecord, fetchRecordViaHttp, hval, hconn, hv]

/-- C8 witness: a concrete non-string record value is returned as its
2-space-indented serialization, a concrete string value verbatim. -/
theorem fetch_serializes_nonstring_data_witness :
    (fetchRecord
        { conn := some "c",
          tables := [(("json_records", "k"), .obj [("a", .num 1)])],
          builtQueries := [] }
        { name := "g", filePath := "f", id := "k",
          tableName := "json_records" }).2 =
      .ok (some (jsonStringify2 (.obj [("a", .num 1)]))) ∧
    jsonStringify2 (.obj [("a", .num 1)]) = "\x7b\n  \"a\": 1\n\x7d" := by
  have h := fetch_serializes_nonstring_data
    { conn := some "c",
      tables := [(("json_records", "k"), .obj [("a", .num 1)])],
      builtQueries := [] }
    { name := "g", filePath := "f", id := "k", tableName := "json_records" }
    (.obj [("a", .num 1)]) "c" (by decide) rfl rfl
  exact ⟨h.1 (by decide), h.2.2.1⟩

/-- C4 counterexample: when the first scratch write succeeds and the second
fails, `startDownload` aborts with no registered session while the first
scratch file stays on disk — a partial scratch file without a session, so
scratch-file creation and registration are not effectively atomic. -/
theorem start_not_atomic_counterexample :
    (startDownload [exampleProfile] "cfg" (fun _ => .ok (some "hello"))
        (fun pth => pth == dlRightPath exampleProfile 0) none 0
        emptyWorld).2 = .writeFailed (dlRightPath exampleProfile 0) ∧
    (startDownload [exampleProfile] "cfg" (fun _ => .ok (some "hello"))
        (fun pth => pth == dlRightPath exampleProfile 0) none 0
        emptyWorld).1.currentSession = none ∧
    fsLookup (startDownload [exampleProfile] "cfg" (fun _ => .ok (some "hello"))
        (fun pth => pth == dlRightPath exampleProfile 0) none 0
        emptyWorld).1.fs (dlLeftPath exampleProfile 0) = some "" := by
  refine ⟨?_, ?_, ?_⟩ <;> decide

/-- C4 amended: a fetch error aborts with the world unchanged (no scratch
files, no session), and no failure ever registers a session — the session
slot and syncing flag change only when the start succeeds — but scratch
creation is not atomic with the disk: a failure writing the second scratch
file can leave the first scratch file on disk without a registered session. -/
theorem start_failure_never_registers_session (profiles : List Profile)
    (name msg : String) (p : Profile)
    (fetch : Profile → Except String (Option String)) (fW : String → Bool)
    (root : Option String) (now : Nat) (w : World) :
    (getProfile profiles name = some p → fetch p = .error msg →
      startDownload profiles name fetch fW root now w = (w, .fetchFailed msg) ∧
      startUpload profiles name fetch fW root now w = (w, .fetchFailed msg)) ∧
    (((startDownload profiles name fetch fW root now w).1.currentSession =
          w.currentSession ∧
        (startDownload profiles name fetch fW root now w).1.isSyncing =
          w.isSyncing) ∨
      (startDownload profiles name fetch fW root now w).2 = .sessionStarted) ∧
    (((startUpload profiles name fetch fW root now w).1.currentSession =
          w.currentSession ∧
        (startUpload profiles name fetch fW root now w).1.isSyncing =
          w.isSyncing) ∨
      (startUpload profiles name fetch fW root now w).2 = .sessionStarted) := by
  refine ⟨?_, ?_, ?_⟩
  · intro hp hf
    constructor
    · simp [startDownload, hp, hf]
    · simp [startUpload, hp, hf]
  · rcases hp : getProfile profiles name with _ | p'
    · simp [startDownload, hp]
    · rcases hf : fetch p' with m | rdo
      · simp [startDownload, hp, hf]
      · simp only [startDownload, hp, hf]
        repeat' split
        all_goals first
          | exact Or.inl ⟨rfl, rfl⟩
          | exact Or.inr rfl
  · rcases hp : getProfile profiles name with _ | p'
    · simp [startUpload, hp]
    · rcases hf : fetch p' with m | rdo
      · simp [startUpload, hp, hf]
      · simp only [startUpload, hp, hf]
        repeat' split
        all_goals first
          | exact Or.inl ⟨rfl, rfl⟩
          | exact Or.inr rfl

/-- C4 amended witness: a concrete fetch error leaves the world unchanged,
and the non-registration disjunction at the concrete second-write failure. -/
theorem start_failure_never_registers_session_witness :
    (startDownload [exampleProfile] "cfg" (fun _ => .error "ECONNREFUSED")
        (fun _ => false) none 0 emptyWorld =
      (emptyWorld, .fetchFailed "ECONNREFUSED")) ∧
    (((startDownload [exampleProfile] "cfg" (fun _ => .ok (some "hello"))
          (fun pth => pth == dlRightPath exampleProfile 0) none 0
          emptyWorld).1.currentSession = emptyWorld.currentSession ∧
        (startDownload [exampleProfile] "cfg" (fun _ => .ok (some "hello"))
          (fun pth => pth == dlRightPath exampleProfile 0) none 0
          emptyWorld).1.isSyncing = emptyWorld.isSyncing) ∨
      (startDownload [exampleProfile] "cfg" (fun _ => .ok (some "hello"))
          (fun pth => pth == dlRightPath exampleProfile 0) none 0
          emptyWorld).2 = .sessionStarted) := by
  constructor
  · exact (start_failure_never_registers_session [exampleProfile] "cfg"
      "ECONNREFUSED" exampleProfile (fun _ => .error "ECONNREFUSED")
      (fun _ => false) none 0 emptyWorld).1 (by decide) rfl |>.1
  · exact (start_failure_never_registers_session [exampleProfile] "cfg"
      "ECONNREFUSED" exampleProfile (fun _ => .ok (some "hello"))
      (fun pth => pth == dlRightPath exampleProfile 0) none 0
      emptyWorld).2.1

/-- C9: when a start operation reaches session registration while a session
is already active, the new session silently overwrites the active-session
slot and no cleanup of the old session happens: every observer that was live
stays live (the old close-listener is not disposed) and the disk is unchanged
except for the two new scratch paths (the old session's scratch files are
not deleted). -/
theorem start_replaces_session_without_cleanup (profiles : List Profile)
    (name : String) (fetch : Profile → Except String (Option String))
    (fW : String → Bool) (root : Option String) (now : Nat) (w : World)
    (old : SyncSession) (p : Profile)
    (hold : w.currentSession = some old)
    (hp : getProfile profiles name = some p) :
    ((startDownload profiles name fetch fW root now w).2 = .sessionStarted →
      (startDownload profiles name fetch fW root now w).1.currentSession =
        some { type := .download, profile := p,
               candidateUri := dlRightPath p now,
               tempFiles := [dlLeftPath p now, dlRightPath p now],
               observerId := some w.nextObserver } ∧
      (∀ i, i ∈ w.liveObservers →
        i ∈ (startDownload profiles name fetch fW root now w).1.liveObservers) ∧
      (∀ f, f ≠ dlLeftPath p now → f ≠ dlRightPath p now →
        fsLookup (startDownload profiles name fetch fW root now w).1.fs f =
          fsLookup w.fs f)) ∧
    ((startUpload profiles name fetch fW root now w).2 = .sessionStarted →
      (startUpload profiles name fetch fW root now w).1.currentSession =
        some { type := .upload, profile := p,
               candidateUri := ulRightPath p now,
               tempFiles := [ulLeftPath p now, ulRightPath p now],
               observerId := some w.nextObserver } ∧
      (∀ i, i ∈ w.liveObservers →
        i ∈ (startUpload profiles name fetch fW root now w).1.liveObservers) ∧
      (∀ f, f ≠ ulLeftPath p now → f ≠ ulRightPath p now →
        fsLookup (startUpload profiles name fetch fW root now w).1.fs f =
          fsLookup w.fs f)) := by
  constructor
  · rcases hf : fetch p with m | rdo
    · intro h2
      simp [startDownload, hp, hf] at h2
    · rcases rdo with _ | rd
      · intro h2
        simp [startDownload, hp, hf] at h2
      · simp only [startDownload, hp, hf]
        repeat' split
        all_goals intro h2
        all_goals try (simp at h2)
        all_goals refine ⟨rfl, fun i hi => List.mem_cons_of_mem _ hi,
          fun f hf1 hf2 => ?_⟩
        all_goals simp [registerSession, fsLookup_fsWrite_ne _ _ _ _ hf2,
          fsLookup_fsWrite_ne _ _ _ _ hf1]
  · rcases hf : fetch p with m | rdo
    · intro h2
      simp [startUpload, hp, hf] at h2
    · simp only [startUpload, hp, hf]
      repeat' split
      all_goals intro h2
      all_goals try (simp at h2)
      all_goals refine ⟨rfl, fun i hi => List.mem_cons_of_mem _ hi,
        fun f hf1 hf2 => ?_⟩
      all_goals simp [registerSession, fsLookup_fsWrite_ne _ _ _ _ hf2,
        fsLookup_fsWrite_ne _ _ _ _ hf1]

/-- C9 witness: starting a download at a concrete world whose session slot is
occupied registers the new session, keeps the old observer id live and keeps
the old session's scratch files on disk. -/
theorem start_replaces_session_without_cleanup_witness :
    (startDownload [exampleProfile] "cfg" (fun _ => .ok (some "fresh"))
        (fun _ => false) none 7 readableWorld).1.currentSession =
      some { type := .download, profile := exampleProfile,
             candidateUri := dlRightPath exampleProfile 7,
             tempFiles := [dlLeftPath exampleProfile 7,
               dlRightPath exampleProfile 7],
             observerId := some readableWorld.nextObserver } ∧
    0 ∈ (startDownload [exampleProfile] "cfg" (fun _ => .ok (some "fresh"))
        (fun _ => false) none 7 readableWorld).1.liveObservers ∧
    fsLookup (startDownload [exampleProfile] "cfg" (fun _ => .ok (some "fresh"))
        (fun _ => false) none 7 readableWorld).1.fs "/tmp/remote_cfg_0.json" =
      fsLookup readableWorld.fs "/tmp/remote_cfg_0.json" := by
  have h := start_replaces_session_without_cleanup [exampleProfile] "cfg"
    (fun _ => .ok (some "fresh")) (fun _ => false) none 7 readableWorld
    exampleSession exampleProfile (by decide) (by decide)
  have h2 : (startDownload [exampleProfile] "cfg" (fun _ => .ok (some "fresh"))
      (fun _ => false) none 7 readableWorld).2 = .sessionStarted := by decide
  exact ⟨(h.1 h2).1, (h.1 h2).2.1 0 (by decide),
    (h.1 h2).2.2 "/tmp/remote_cfg_0.json" (by decide) (by decide)⟩

end NeonSync
